import Mathlib

/-!
Shallow embedding of the ATEM connection pool manager
(`AtemConnectionManager`, src/unnamed/part_000).

The JavaScript runtime is a single-threaded event loop: each task runs
without preemption until its next `await`.  The embedding therefore threads
an explicit `World` state through the manager's operations.  The driver
(`atem-connection`'s `Atem` object) is opaque; its behaviour is modelled by
a function `behavior : Nat -> Outcome` giving, for the n-th `atem.connect`
call issued to an address, which of the three racers of the per-iteration
race fires first: the `connected` event, the `error` event, or the 10s
timeout timer.
-/

set_option linter.unusedVariables false

/-- Pool configuration: the three readonly constants of the class
(`maxRetries = 10`, `retryDelay = 5000`, `connectionTimeout = 10000`). -/
structure Config where
  maxRetries : Nat := 10
  retryDelay : Nat := 5000
  connectionTimeout : Nat := 10000
deriving DecidableEq

/-- Outcome of one `atem.connect(ip)` call: whichever of the success event,
the error event, or the connection timeout fires first.  `elapsed` is how
long after the call the driver event fired (for the timeout case the elapsed
time is the configured `connectionTimeout`). -/
inductive Outcome
  | success (elapsed : Nat)
  | errEvt (elapsed : Nat) (msg : String)
  | timeout
deriving DecidableEq

/-- Pool-level events emitted via `this.emit(...)`. -/
inductive Event
  | connected (ip : String)
  | disconnected (ip : String)
  | errorEvt (ip : String) (msg : String)
  | retry (ip : String) (attempt : Nat) (msg : String)
  | connectionFailed (ip : String) (msg : String)
  | reconnectFailed (ip : String) (msg : String)
  | stateChanged (ip : String)
deriving DecidableEq

/-- One entry of `atem.state.inputs`: the fields read by `getInputSources`.
`none` for a field models JS `undefined` (field absent); `some ""` is a
present-but-falsy string, which the JS `||` operator also skips. -/
structure InputInfo where
  longName : Option String := none
  shortName : Option String := none
deriving DecidableEq

/-- The driver state snapshot, restricted to what the queries read.
An inputs entry whose value is `none` models a null / non-object value
(rejected by the `value && typeof value === 'object'` check). -/
structure AtemState where
  inputs : List (String × Option InputInfo) := []
deriving DecidableEq

/-- The `AtemConnection` record of the source: `isConnected`,
`connectionPromise` (modelled by whether the reference is non-null),
`retryCount`, `lastRetryTime`, and the driver's `atem.state` snapshot. -/
structure Conn where
  isConnected : Bool := false
  hasPromise : Bool := false
  retryCount : Nat := 0
  lastRetryTime : Nat := 0
  state : Option AtemState := none
deriving DecidableEq

/-- A `StateChangeListener` of the source: the record stores only the ip and
the callback; the callback is modelled by an identity token.  Note the
stored record has no listener-id field. -/
structure Listener where
  ip : String
  cb : Nat
deriving DecidableEq

/-- Association-list lookup, modelling `Map.get`. -/
def alookup {α : Type} : List (String × α) → String → Option α
  | [], _ => none
  | (k, v) :: m, ip => if k = ip then some v else alookup m ip

/-- Association-list update, modelling `Map.set` (in-place update of an
existing key, append of a new one; JS `Map` preserves insertion order). -/
def aset {α : Type} : List (String × α) → String → α → List (String × α)
  | [], ip, v => [(ip, v)]
  | (k, v0) :: m, ip, v => if k = ip then (k, v) :: m else (k, v0) :: aset m ip v

/-- Association-list removal, modelling `Map.delete`. -/
def aerase {α : Type} : List (String × α) → String → List (String × α)
  | [], _ => []
  | (k, v0) :: m, ip => if k = ip then m else (k, v0) :: aerase m ip

/-- The whole observable state of one manager instance plus the logs an
outside tester records: pool events emitted, `atem.connect` calls issued
(one list entry per call, holding the target ip), `atem.disconnect` calls,
observer-callback invocations, caught observer-callback errors, and the
current clock. -/
structure World where
  conns : List (String × Conn) := []
  listeners : List (String × List Listener) := []
  events : List Event := []
  callLog : List String := []
  discLog : List String := []
  invocations : List Nat := []
  cbErrors : List Nat := []
  now : Nat := 0
deriving DecidableEq

/-- Number of connect calls already issued to `ip` (used to index the driver
behaviour function). -/
def countIp (l : List String) (ip : String) : Nat :=
  l.countP (fun s => s == ip)

deriving instance DecidableEq for Except

/-- Result of running `connectWithRetry`'s promise to settlement: whether it
resolved or rejected, the final connection record, the pool events emitted,
the number of `atem.connect` calls issued, and the clock at settlement. -/
structure RunResult where
  res : Except String Unit
  conn : Conn
  events : List Event
  calls : Nat
  now : Nat
deriving DecidableEq

/-- The `while (connection.retryCount < this.maxRetries)` loop of
`connectWithRetry`, recursing on the fuel `maxRetries - retryCount`:
`retryCount` grows by exactly 1 per failed iteration (the only other exits
are the success `return` and the exhaustion `throw`), so fuel `0` is exactly
the while-guard being false and, inside an iteration, the post-increment
check `retryCount >= maxRetries` is exactly the remaining fuel being `0`.

Per iteration: one `atem.connect(ip)` call is issued and raced against the
timeout.  On the driver's `connected` event, first the persistent handler
installed by `setupEventListeners` runs (sets `isConnected`, resets
`retryCount`, emits pool `connected`), then the `once` handler of this
iteration (same flag updates plus `lastRetryTime := Date.now()`, a second
pool `connected`, and resolution) — hence two `connected` events.  (Stale
`once` hooks left over from previous failed iterations of the same loop
would re-run the same idempotent updates and emit further duplicate
`connected` events; no claim depends on the multiplicity of `connected`, so
only the two listed emissions are modelled.)  On the driver's `error` event,
the persistent handler emits pool `error`, clears `isConnected` and calls
`attemptReconnect`, which returns immediately because `connectionPromise`
is non-null for the whole run; then the `once` handler rejects, and the
`catch` block increments `retryCount`, stamps `lastRetryTime` and emits
`retry`.  On timeout no driver event fires: only the rejection with
"Connection timeout" and the same `catch` block.  On exhaustion the `catch`
block clears `isConnected` and `connectionPromise`, emits
`connectionFailed` and rethrows the last error. -/
def connectLoop (cfg : Config) (behavior : Nat → Outcome) (ip : String) :
    Nat → Conn → Nat → Nat → RunResult
  | 0, conn, _, now => ⟨Except.ok (), conn, [], 0, now⟩
  | Nat.succ fuel, conn, callIdx, now =>
    match behavior callIdx with
    | Outcome.success elapsed =>
      ⟨Except.ok (),
       { conn with isConnected := true, retryCount := 0, lastRetryTime := now + elapsed },
       [Event.connected ip, Event.connected ip], 1, now + elapsed⟩
    | Outcome.errEvt elapsed msg =>
      let conn2 : Conn :=
        { conn with isConnected := false, retryCount := conn.retryCount + 1,
                    lastRetryTime := now + elapsed }
      let pre : List Event := [Event.errorEvt ip msg, Event.retry ip conn2.retryCount msg]
      match fuel with
      | 0 =>
        ⟨Except.error msg, { conn2 with isConnected := false, hasPromise := false },
         pre ++ [Event.connectionFailed ip msg], 1, now + elapsed⟩
      | Nat.succ f2 =>
        let r := connectLoop cfg behavior ip (Nat.succ f2) conn2 (callIdx + 1)
                   (now + elapsed + cfg.retryDelay)
        ⟨r.res, r.conn, pre ++ r.events, 1 + r.calls, r.now⟩
    | Outcome.timeout =>
      let conn2 : Conn :=
        { conn with retryCount := conn.retryCount + 1,
                    lastRetryTime := now + cfg.connectionTimeout }
      let pre : List Event := [Event.retry ip conn2.retryCount "Connection timeout"]
      match fuel with
      | 0 =>
        ⟨Except.error "Connection timeout",
         { conn2 with isConnected := false, hasPromise := false },
         pre ++ [Event.connectionFailed ip "Connection timeout"], 1,
         now + cfg.connectionTimeout⟩
      | Nat.succ f2 =>
        let r := connectLoop cfg behavior ip (Nat.succ f2) conn2 (callIdx + 1)
                   (now + cfg.connectionTimeout + cfg.retryDelay)
        ⟨r.res, r.conn, pre ++ r.events, 1 + r.calls, r.now⟩

/-- `connectWithRetry(ip, connection)` run to settlement, entered with the
connection's current `retryCount` (the wrapper computes the fuel of
`connectLoop` from it).  When `retryCount >= maxRetries` already holds the
loop body never runs and the promise resolves at once without any connect
call, leaving the record untouched. -/
def connectWithRetry (cfg : Config) (behavior : Nat → Outcome) (ip : String)
    (conn : Conn) (callIdx : Nat) (now : Nat) : RunResult :=
  connectLoop cfg behavior ip (cfg.maxRetries - conn.retryCount) conn callIdx now

/-- `createConnection(ip)` run to settlement: create the entry if absent
(also installing the persistent event listeners), set `connectionPromise`
to a fresh `connectWithRetry` run, await it (a rejection is rethrown to the
caller), and on resolution throw the "Failed to connect" error unless
`isConnected` is set. -/
def createConnection (cfg : Config) (behavior : Nat → Outcome) (w : World)
    (ip : String) : Except String Unit × World :=
  let conn : Conn := (alookup w.conns ip).getD {}
  let w1 : World := { w with conns := aset w.conns ip conn }
  let conn2 : Conn := { conn with hasPromise := true }
  let r := connectWithRetry cfg behavior ip conn2 (countIp w1.callLog ip) w1.now
  let w2 : World :=
    { w1 with conns := aset w1.conns ip r.conn,
              events := w1.events ++ r.events,
              callLog := w1.callLog ++ List.replicate r.calls ip,
              now := r.now }
  match r.res with
  | Except.error e => (Except.error e, w2)
  | Except.ok _ =>
    if r.conn.isConnected then (Except.ok (), w2)
    else (Except.error ("Failed to connect to ATEM at " ++ ip ++ " after "
            ++ toString cfg.maxRetries ++ " retries"), w2)

/-- `getConnection(ip)` in a quiescent world (no other task mid-flight):
fast path when the entry is connected; when an entry holds a non-null
`connectionPromise` the `await` on it returns immediately — in a quiescent
world a stored promise is necessarily already resolved, because every
rejecting `connectWithRetry` run nulls `connectionPromise` before throwing —
and the re-checked `isConnected` is still false, so the call falls through
to `createConnection`, as does the no-entry / no-promise branch.  (The
resumption of a `getConnection` that awaited a still-running attempt is
modelled separately by `awaitPendingResume`.) -/
def getConnection (cfg : Config) (behavior : Nat → Outcome) (w : World)
    (ip : String) : Except String Unit × World :=
  match alookup w.conns ip with
  | some c =>
    if c.isConnected then (Except.ok (), w)
    else if c.hasPromise then createConnection cfg behavior w ip
    else createConnection cfg behavior w ip
  | none => createConnection cfg behavior w ip

/-- Which branch of `getConnection` a caller takes, decided synchronously
from the state at the moment of the call (before any suspension point). -/
inductive AcquirePath
  | fastPath
  | awaitPending
  | startFresh
deriving DecidableEq

/-- The synchronous segment of `createConnection`, i.e. everything the JS
event loop runs before the caller's task first suspends: the entry is
created if absent (installing the persistent listeners), the body of the
freshly invoked `connectWithRetry` runs up to its first `await` — when the
while-guard `retryCount < maxRetries` holds this issues exactly one
`atem.connect(ip)` call — and then `connection.connectionPromise` is
assigned the returned promise, so the reference is non-null before any
other task can run. -/
def startFreshPhase (cfg : Config) (w : World) (ip : String) : World :=
  let conn : Conn := (alookup w.conns ip).getD {}
  let w1 : World := { w with conns := aset w.conns ip conn }
  if conn.retryCount < cfg.maxRetries then
    { w1 with callLog := w1.callLog ++ [ip],
              conns := aset w1.conns ip { conn with hasPromise := true } }
  else
    { w1 with conns := aset w1.conns ip { conn with hasPromise := true } }

/-- The synchronous segment of one `getConnection(ip)` call: the branch
taken, and the state it leaves behind for the next task. -/
def syncPhase (cfg : Config) (w : World) (ip : String) : AcquirePath × World :=
  match alookup w.conns ip with
  | some c =>
    if c.isConnected then (AcquirePath.fastPath, w)
    else if c.hasPromise then (AcquirePath.awaitPending, w)
    else (AcquirePath.startFresh, startFreshPhase cfg w ip)
  | none => (AcquirePath.startFresh, startFreshPhase cfg w ip)

/-- The synchronous segments of `n` back-to-back `getConnection(ip)` calls,
in arrival order (the event loop runs each segment atomically). -/
def runSyncPhases (cfg : Config) (ip : String) : World → Nat → List AcquirePath × World
  | w, 0 => ([], w)
  | w, Nat.succ n =>
    let p := syncPhase cfg w ip
    let rest := runSyncPhases cfg ip p.2 n
    (p.1 :: rest.1, rest.2)

/-- Resumption of a `getConnection(ip)` caller that took the
`awaitPending` branch, once the awaited attempt settles with result `res`
leaving the world in state `w`.  The `await` of a rejected promise rethrows
— there is no try/catch around it in `getConnection` — so a rejection
propagates straight to this caller.  On resolution `isConnected` is
re-checked: if set, the driver is returned; otherwise the caller falls
through to `createConnection`. -/
def awaitPendingResume (cfg : Config) (behavior : Nat → Outcome) (res : Except String Unit)
    (w : World) (ip : String) : Except String Unit × World :=
  match res with
  | Except.error e => (Except.error e, w)
  | Except.ok _ =>
    match alookup w.conns ip with
    | some c =>
      if c.isConnected then (Except.ok (), w)
      else createConnection cfg behavior w ip
    | none => createConnection cfg behavior w ip

/-- `attemptReconnect(ip, connection)` run to settlement.  It returns at
once while `connectionPromise` is non-null; if the retry budget of a prior
cycle is exhausted it first awaits `2 * retryDelay` and resets `retryCount`
to 0; then it runs a `connectWithRetry` cycle whose rejection is caught
and converted into a `reconnectFailed` event (nothing is rethrown: the
function's result is a plain `World`). -/
def attemptReconnect (cfg : Config) (behavior : Nat → Outcome) (w : World)
    (ip : String) : World :=
  match alookup w.conns ip with
  | none => w
  | some c =>
    if c.hasPromise then w
    else
      let w1 : World :=
        if cfg.maxRetries ≤ c.retryCount
        then { w with now := w.now + 2 * cfg.retryDelay } else w
      let c1 : Conn :=
        if cfg.maxRetries ≤ c.retryCount then { c with retryCount := 0 } else c
      let c2 : Conn := { c1 with hasPromise := true }
      let r := connectWithRetry cfg behavior ip c2 (countIp w1.callLog ip) w1.now
      let w2 : World :=
        { w1 with conns := aset w1.conns ip r.conn,
                  events := w1.events ++ r.events,
                  callLog := w1.callLog ++ List.replicate r.calls ip,
                  now := r.now }
      match r.res with
      | Except.ok _ => w2
      | Except.error e => { w2 with events := w2.events ++ [Event.reconnectFailed ip e] }

/-- `disconnect(ip)`: when an entry exists, its `connectionPromise`
reference is nulled (on an object that is removed in the same tick, so the
write has no further observable effect), `atem.disconnect()` is called only
when `isConnected` holds, and the entry is deleted from the map. -/
def disconnect (w : World) (ip : String) : World :=
  match alookup w.conns ip with
  | none => w
  | some c =>
    let w1 : World := if c.isConnected then { w with discLog := w.discLog ++ [ip] } else w
    { w1 with conns := aerase w1.conns ip }

/-- One observer callback invocation inside the `forEach` of the
`stateChanged` handler: the call is made inside a try/catch, so a throwing
callback (`throws` models which callback identities throw) only adds a
logged error and never escapes. -/
def notifyOne (throws : Nat → Bool) (w : World) (l : Listener) : World :=
  if throws l.cb
  then { w with invocations := w.invocations ++ [l.cb], cbErrors := w.cbErrors ++ [l.cb] }
  else { w with invocations := w.invocations ++ [l.cb] }

/-- The `stateChanged` driver-event handler: emit the pool-level
`stateChanged` event, then invoke every registered listener for the
address in order, each inside its own try/catch. -/
def handleStateChanged (throws : Nat → Bool) (w : World) (ip : String) : World :=
  let w1 : World := { w with events := w.events ++ [Event.stateChanged ip] }
  match alookup w1.listeners ip with
  | none => w1
  | some ls => ls.foldl (notifyOne throws) w1

/-- The `findIndex` + `splice(index, 1)` pair of `addStateListener`:
remove the first entry whose callback is `cb`, if any. -/
def removeFirstCb (cb : Nat) : List Listener → List Listener
  | [] => []
  | l :: ls => if l.cb = cb then ls else l :: removeFirstCb cb ls

/-- `addStateListener(listenerId, ip, callback)`: ensure the per-address
list exists, remove an existing entry with the same callback — the source
compares `l.callback === callback`, and the `listenerId` argument is never
consulted nor stored — and append the new `(ip, callback)` record. -/
def addStateListener (w : World) (listenerId : String) (ip : String) (cb : Nat) : World :=
  let ls : List Listener := (alookup w.listeners ip).getD []
  { w with listeners := aset w.listeners ip (removeFirstCb cb ls ++ [⟨ip, cb⟩]) }

/-- Number of entries of a listener list holding callback `cb`. -/
def cbCount (ls : List Listener) (cb : Nat) : Nat :=
  ls.countP (fun l => l.cb == cb)

/-- JS `parseInt(key, 10)`: skip leading whitespace, read an optional sign
and then a maximal digit run; `none` models `NaN` (no digits). -/
def parseIntJS (s : String) : Option Int :=
  let cs := s.data.dropWhile (fun c => c == ' ' || c == '\t' || c == '\n' || c == '\r')
  let signNeg : Bool := cs.head? = some '-'
  let cs2 := if cs.head? = some '-' || cs.head? = some '+' then cs.tail else cs
  let digits := cs2.takeWhile Char.isDigit
  if digits.isEmpty then none
  else
    let n : Nat := digits.foldl (fun acc c => acc * 10 + (c.toNat - '0'.toNat)) 0
    if signNeg then some (-(n : Int)) else some (n : Int)

/-- JS `a || b` on an optional string: `b` when `a` is absent or falsy
(the empty string), otherwise `a`. -/
def jsFalsyOr (a : Option String) (b : String) : String :=
  match a with
  | some s => if s = "" then b else s
  | none => b

/-- The `name` computed for one input:
`value.longName || value.shortName || ("Input " + inputId)`. -/
def inputName (id : Int) (v : InputInfo) : String :=
  jsFalsyOr v.longName (jsFalsyOr v.shortName ("Input " ++ toString id))

/-- One entry of the `getInputSources` result. -/
structure SourceEntry where
  id : Int
  name : String
deriving DecidableEq

/-- The push made (or not) for one `Object.entries(inputs)` pair: skipped
when the value is null / not an object, when `parseInt` yields `NaN`, or
when the object lacks a `longName` field. -/
def entryOf (kv : String × Option InputInfo) : Option SourceEntry :=
  match kv.2 with
  | none => none
  | some v =>
    match parseIntJS kv.1 with
    | none => none
    | some id => if v.longName.isSome then some ⟨id, inputName id v⟩ else none

/-- `getInputSources(ip)`: empty unless the entry exists, is connected and
the driver has a state; otherwise collect the qualifying inputs in
`Object.entries` order and sort by id.  The engine's `Array.sort` is a
stable sort under the total comparator `a.id - b.id`; a stable sort's
output is unique, so the structural stable `insertionSort` computes it. -/
def getInputSources (w : World) (ip : String) : List SourceEntry :=
  match alookup w.conns ip with
  | none => []
  | some c =>
    if c.isConnected = false then []
    else
      match c.state with
      | none => []
      | some st =>
        List.insertionSort (fun a b => a.id ≤ b.id) (st.inputs.filterMap entryOf)

/-- Message carried by the rejection of one failed iteration, `none` for a
successful one: an `error` event rejects with the driver's message, the
timeout timer with "Connection timeout". -/
def failMsgOf : Outcome → Option String
  | Outcome.success _ => none
  | Outcome.errEvt _ msg => some msg
  | Outcome.timeout => some "Connection timeout"

/-- Recognizer for pool-level `retry` events. -/
def isRetryEvt : Event → Bool
  | Event.retry _ _ _ => true
  | _ => false

/-- Recognizer for pool-level `connectionFailed` events. -/
def isConnFailedEvt : Event → Bool
  | Event.connectionFailed _ _ => true
  | _ => false

/-- Recognizer for pool-level `reconnectFailed` events. -/
def isReconnFailedEvt : Event → Bool
  | Event.reconnectFailed _ _ => true
  | _ => false

theorem alookup_aset_self {α : Type} (m : List (String × α)) (ip : String) (v : α) :
    alookup (aset m ip v) ip = some v := by
  induction m with
  | nil => simp [aset, alookup]
  | cons kv m ih =>
    obtain ⟨k, v0⟩ := kv
    by_cases h : k = ip
    · simp [aset, alookup, h]
    · simp [aset, alookup, h, ih]

theorem aset_aset_self {α : Type} (m : List (String × α)) (ip : String) (a b : α) :
    aset (aset m ip a) ip b = aset m ip b := by
  induction m with
  | nil => simp [aset]
  | cons kv m ih =>
    obtain ⟨k, v0⟩ := kv
    by_cases h : k = ip
    · simp [aset, h]
    · simp [aset, h, ih]

theorem alookup_eq_none_of_not_mem {α : Type} (m : List (String × α)) (ip : String)
    (h : ip ∉ m.map Prod.fst) : alookup m ip = none := by
  induction m with
  | nil => simp [alookup]
  | cons kv m ih =>
    obtain ⟨k, v0⟩ := kv
    simp only [List.map_cons, List.mem_cons, not_or] at h
    have hk : ¬ k = ip := fun hh => h.1 hh.symm
    simp only [alookup, if_neg hk]
    exact ih h.2

theorem alookup_aerase_self {α : Type} (m : List (String × α)) (ip : String)
    (hnodup : (m.map Prod.fst).Nodup) : alookup (aerase m ip) ip = none := by
  induction m with
  | nil => simp [aerase, alookup]
  | cons kv m ih =>
    obtain ⟨k, v0⟩ := kv
    simp only [List.map_cons, List.nodup_cons] at hnodup
    by_cases h : k = ip
    · subst h
      simp only [aerase, if_pos rfl]
      exact alookup_eq_none_of_not_mem m k hnodup.1
    · simp only [aerase, if_neg h, alookup, if_neg h]
      exact ih hnodup.2

theorem countIp_append_self (l : List String) (ip : String) :
    countIp (l ++ [ip]) ip = countIp l ip + 1 := by
  simp [countIp, List.countP_append]


/-- A positive-fuel run of the retry loop issues at least one connect call:
the first iteration always calls `atem.connect`. -/
theorem connectLoop_calls_pos (cfg : Config) (behavior : Nat → Outcome) (ip : String)
    (fuel : Nat) (conn : Conn) (callIdx now : Nat) (h : 0 < fuel) :
    1 ≤ (connectLoop cfg behavior ip fuel conn callIdx now).calls := by
  cases fuel with
  | zero => omega
  | succ f =>
    rw [connectLoop.eq_2]
    cases hb : behavior callIdx with
    | success e => simp
    | errEvt e m => cases f <;> simp
    | timeout => cases f <;> simp

/-- A retry-loop run whose every iteration fails: the promise rejects with
the last iteration's message, the connection ends Disconnected with its
promise reference cleared, exactly one `connectionFailed` event and no
`reconnectFailed` event is emitted, and one connect call is issued per
iteration. -/
theorem connectLoop_allFail (cfg : Config) (behavior : Nat → Outcome) (ip : String) :
    ∀ (fuel : Nat) (conn : Conn) (callIdx now : Nat), 0 < fuel →
    (∀ i, i < fuel → (failMsgOf (behavior (callIdx + i))).isSome = true) →
    (connectLoop cfg behavior ip fuel conn callIdx now).res
      = Except.error ((failMsgOf (behavior (callIdx + (fuel - 1)))).getD "") ∧
    (connectLoop cfg behavior ip fuel conn callIdx now).conn.isConnected = false ∧
    (connectLoop cfg behavior ip fuel conn callIdx now).conn.hasPromise = false ∧
    (connectLoop cfg behavior ip fuel conn callIdx now).events.countP isConnFailedEvt = 1 ∧
    (connectLoop cfg behavior ip fuel conn callIdx now).events.countP isReconnFailedEvt = 0 ∧
    (connectLoop cfg behavior ip fuel conn callIdx now).calls = fuel := by
  intro fuel
  induction fuel with
  | zero => intro conn callIdx now h; omega
  | succ f ih =>
    intro conn callIdx now _ hfail
    have h0 := hfail 0 (Nat.succ_pos f)
    rw [connectLoop.eq_2]
    cases hb : behavior callIdx with
    | success e => rw [Nat.add_zero, hb] at h0; simp [failMsgOf] at h0
    | errEvt e m =>
      cases f with
      | zero =>
        rw [Nat.add_zero, hb] at h0
        simp [hb, isConnFailedEvt, isReconnFailedEvt, List.countP_cons, failMsgOf]
      | succ f2 =>
        have hf2 : ∀ i, i < f2 + 1 → (failMsgOf (behavior (callIdx + 1 + i))).isSome = true := by
          intro i hi
          have := hfail (i + 1) (by omega)
          rwa [show callIdx + (i + 1) = callIdx + 1 + i by omega] at this
        have hr := ih { conn with isConnected := false, retryCount := conn.retryCount + 1,
                                  lastRetryTime := now + e }
          (callIdx + 1) (now + e + cfg.retryDelay) (Nat.succ_pos f2) hf2
        simp only [hb]
        refine ⟨?_, hr.2.1, hr.2.2.1, ?_, ?_, ?_⟩
        · rw [hr.1]
          congr 4
          omega
        · simp [List.countP_cons, List.countP_append, isConnFailedEvt, hr.2.2.2.1]
        · simp [List.countP_cons, List.countP_append, isReconnFailedEvt, hr.2.2.2.2.1]
        · simp [hr.2.2.2.2.2]
          omega
    | timeout =>
      cases f with
      | zero =>
        simp [hb, isConnFailedEvt, isReconnFailedEvt, List.countP_cons, failMsgOf]
      | succ f2 =>
        have hf2 : ∀ i, i < f2 + 1 → (failMsgOf (behavior (callIdx + 1 + i))).isSome = true := by
          intro i hi
          have := hfail (i + 1) (by omega)
          rwa [show callIdx + (i + 1) = callIdx + 1 + i by omega] at this
        have hr := ih { conn with retryCount := conn.retryCount + 1,
                                  lastRetryTime := now + cfg.connectionTimeout }
          (callIdx + 1) (now + cfg.connectionTimeout + cfg.retryDelay) (Nat.succ_pos f2) hf2
        simp only [hb]
        refine ⟨?_, hr.2.1, hr.2.2.1, ?_, ?_, ?_⟩
        · rw [hr.1]
          congr 4
          omega
        · simp [List.countP_cons, List.countP_append, isConnFailedEvt, hr.2.2.2.1]
        · simp [List.countP_cons, List.countP_append, isReconnFailedEvt, hr.2.2.2.2.1]
        · simp [hr.2.2.2.2.2]
          omega

theorem createConnection_callLog_eq (cfg : Config) (behavior : Nat → Outcome)
    (w : World) (ip : String) :
    (createConnection cfg behavior w ip).2.callLog
      = w.callLog ++ List.replicate
          (connectWithRetry cfg behavior ip
            { (alookup w.conns ip).getD {} with hasPromise := true }
            (countIp w.callLog ip) w.now).calls ip := by
  simp only [createConnection]
  split
  · simp
  · split <;> simp

/-- When the entry's `retryCount` is still below the budget, running the
acquire path through `createConnection` issues at least one connect call. -/
theorem createConnection_callLog_gain (cfg : Config) (behavior : Nat → Outcome)
    (w : World) (ip : String)
    (hlt : ((alookup w.conns ip).getD {}).retryCount < cfg.maxRetries) :
    w.callLog.length < (createConnection cfg behavior w ip).2.callLog.length := by
  have hcalls := connectLoop_calls_pos cfg behavior ip
      (cfg.maxRetries - ((alookup w.conns ip).getD {}).retryCount)
      { (alookup w.conns ip).getD {} with hasPromise := true }
      (countIp w.callLog ip) w.now (by omega)
  rw [createConnection_callLog_eq]
  simp only [connectWithRetry] at hcalls ⊢
  simp only [List.length_append, List.length_replicate]
  omega

theorem syncPhase_pending (cfg : Config) (w : World) (ip : String) (c : Conn)
    (hc : alookup w.conns ip = some c) (hconn : c.isConnected = false)
    (hp : c.hasPromise = true) :
    syncPhase cfg w ip = (AcquirePath.awaitPending, w) := by
  simp [syncPhase, hc, hconn, hp]

theorem runSyncPhases_pending (cfg : Config) (ip : String) (w : World) (c : Conn)
    (hc : alookup w.conns ip = some c) (hconn : c.isConnected = false)
    (hp : c.hasPromise = true) :
    ∀ n, runSyncPhases cfg ip w n = (List.replicate n AcquirePath.awaitPending, w) := by
  intro n
  induction n with
  | zero => simp [runSyncPhases]
  | succ n ih =>
    simp [runSyncPhases, syncPhase_pending cfg w ip c hc hconn hp, ih,
      List.replicate_succ]

theorem startFreshPhase_callLog (cfg : Config) (w : World) (ip : String)
    (hnone : alookup w.conns ip = none) (hmax : 0 < cfg.maxRetries) :
    (startFreshPhase cfg w ip).callLog = w.callLog ++ [ip] := by
  simp [startFreshPhase, hnone, hmax]

theorem startFreshPhase_entry (cfg : Config) (w : World) (ip : String)
    (hnone : alookup w.conns ip = none) (hmax : 0 < cfg.maxRetries) :
    alookup (startFreshPhase cfg w ip).conns ip
      = some { ({} : Conn) with hasPromise := true } := by
  simp [startFreshPhase, hnone, hmax, aset_aset_self, alookup_aset_self]

/-- C1: when N callers invoke `getConnection(A)` back to back while no
connection exists, only the first one starts an attempt — its synchronous
segment issues the single `atem.connect(A)` call of the shared iteration
and publishes a non-null `connectionPromise` before any other task runs —
and every subsequent caller takes the await-the-pending-promise branch,
issuing no connect call, so exactly one `connect` call is issued and at
most one pending attempt ever exists for the address. -/
theorem concurrentAcquire_one_connect (cfg : Config) (w : World) (ip : String) (n : Nat)
    (hmax : 0 < cfg.maxRetries) (hnone : alookup w.conns ip = none) (hn : 1 ≤ n) :
    (runSyncPhases cfg ip w n).1
      = AcquirePath.startFresh :: List.replicate (n - 1) AcquirePath.awaitPending ∧
    countIp (runSyncPhases cfg ip w n).2.callLog ip = countIp w.callLog ip + 1 := by
  obtain ⟨m, rfl⟩ : ∃ m, n = m + 1 := ⟨n - 1, by omega⟩
  have h1 : syncPhase cfg w ip = (AcquirePath.startFresh, startFreshPhase cfg w ip) := by
    simp [syncPhase, hnone]
  have hrest := runSyncPhases_pending cfg ip (startFreshPhase cfg w ip)
    { ({} : Conn) with hasPromise := true }
    (startFreshPhase_entry cfg w ip hnone hmax) rfl rfl m
  refine ⟨?_, ?_⟩
  · simp [runSyncPhases, h1, hrest]
  · simp only [runSyncPhases, h1, hrest]
    rw [startFreshPhase_callLog cfg w ip hnone hmax, countIp_append_self]

theorem concurrentAcquire_one_connect_witness :
    (0 < ({} : Config).maxRetries ∧ alookup ({} : World).conns "a" = none ∧ 1 ≤ 3) ∧
    ((runSyncPhases {} "a" ({} : World) 3).1
        = AcquirePath.startFresh :: List.replicate (3 - 1) AcquirePath.awaitPending ∧
      countIp (runSyncPhases {} "a" ({} : World) 3).2.callLog "a"
        = countIp ({} : World).callLog "a" + 1) :=
  ⟨⟨by decide, by decide, by decide⟩,
   concurrentAcquire_one_connect {} {} "a" 3 (by decide) (by decide) (by decide)⟩

/-- World of the C2 counterexample: an entry whose connection attempt is
still in flight (non-null `connectionPromise`, not connected). -/
def c2World : World :=
  { conns := [("1.2.3.4", { isConnected := false, hasPromise := true, retryCount := 3 })] }

/-- C2 counterexample: a caller of `getConnection("1.2.3.4")` that found the
pending attempt and awaited it is handed that attempt's rejection — the
`await existingConnection.connectionPromise` at line 50 has no try/catch —
so when the attempt rejects with "boom" the caller fails with "boom" and the
world is unchanged (in particular no fresh connection attempt is started:
the call log stays as it was), contradicting the claim that the caller
falls through to a fresh attempt instead of seeing the old attempt's
error. -/
theorem awaitPending_rejection_propagates :
    awaitPendingResume {} (fun _ => Outcome.success 0) (Except.error "boom") c2World "1.2.3.4"
      = (Except.error "boom", c2World) := by decide

/-- C2 amended: a caller that found a pending attempt suspends until it
settles; if the attempt rejects, the rejection propagates to the caller
(world untouched, no fresh attempt); if it resolves and the entry is
Connected, the driver is returned; only if it resolves while the entry is
not Connected does the caller fall through to a fresh `createConnection`
attempt (which then issues a connect call whenever the retry budget is not
already exhausted). -/
theorem awaitPendingResume_cases (cfg : Config) (behavior : Nat → Outcome)
    (w : World) (ip : String) (c : Conn) (e : String)
    (hc : alookup w.conns ip = some c) :
    (awaitPendingResume cfg behavior (Except.error e) w ip = (Except.error e, w)) ∧
    (c.isConnected = true →
      awaitPendingResume cfg behavior (Except.ok ()) w ip = (Except.ok (), w)) ∧
    (c.isConnected = false →
      awaitPendingResume cfg behavior (Except.ok ()) w ip
          = createConnection cfg behavior w ip ∧
      (c.retryCount < cfg.maxRetries →
        w.callLog.length
          < (awaitPendingResume cfg behavior (Except.ok ()) w ip).2.callLog.length)) := by
  refine ⟨rfl, fun h => by simp [awaitPendingResume, hc, h], fun h => ⟨?_, fun hlt => ?_⟩⟩
  · simp [awaitPendingResume, hc, h]
  · have := createConnection_callLog_gain cfg behavior w ip (by rw [hc]; simpa using hlt)
    simpa [awaitPendingResume, hc, h] using this

theorem awaitPendingResume_cases_witness :
    alookup c2World.conns "1.2.3.4"
      = some { isConnected := false, hasPromise := true, retryCount := 3 } ∧
    ((awaitPendingResume {} (fun _ => Outcome.timeout) (Except.error "x") c2World "1.2.3.4"
        = (Except.error "x", c2World)) ∧
     (({ isConnected := false, hasPromise := true, retryCount := 3 } : Conn).isConnected = true →
       awaitPendingResume {} (fun _ => Outcome.timeout) (Except.ok ()) c2World "1.2.3.4"
         = (Except.ok (), c2World)) ∧
     (({ isConnected := false, hasPromise := true, retryCount := 3 } : Conn).isConnected = false →
       awaitPendingResume {} (fun _ => Outcome.timeout) (Except.ok ()) c2World "1.2.3.4"
           = createConnection {} (fun _ => Outcome.timeout) c2World "1.2.3.4" ∧
       (({ isConnected := false, hasPromise := true, retryCount := 3 } : Conn).retryCount
            < ({} : Config).maxRetries →
         c2World.callLog.length
           < (awaitPendingResume {} (fun _ => Outcome.timeout) (Except.ok ())
                c2World "1.2.3.4").2.callLog.length))) :=
  ⟨by decide,
   awaitPendingResume_cases {} (fun _ => Outcome.timeout) c2World "1.2.3.4" _ "x" (by decide)⟩

/-- World of the C3 counterexample: a prior cycle exhausted the retry
budget, so the entry sits at `retryCount = 10` with no pending attempt. -/
def c3World : World := { conns := [("x", { retryCount := 10 })] }

/-- C3 counterexample: with an entry left at `retryCount = maxRetries` by a
failed prior cycle (not connected, no pending attempt), `getConnection("x")`
issues no `atem.connect` call at all — the while-guard of `connectWithRetry`
is false on entry, so the promise resolves immediately and the caller gets
the "Failed to connect" error with the call log still empty — contradicting
the claim that a new attempt always issues at least one connect call in
this situation. -/
theorem staleRetryCount_no_connect :
    (getConnection {} (fun _ => Outcome.success 0) c3World "x").2.callLog = [] ∧
    (getConnection {} (fun _ => Outcome.success 0) c3World "x").1
      = Except.error "Failed to connect to ATEM at x after 10 retries" := by decide

/-- C3 amended: when no Connected entry and no pending attempt exists AND
the entry (if any) has `retryCount` below `maxRetries`, `getConnection`
starts a new attempt that issues at least one `driver.connect` call before
the call settles; when a prior cycle left `retryCount` at `maxRetries`,
the call instead fails immediately with zero connect calls. -/
theorem acquire_starts_new_attempt (cfg : Config) (behavior : Nat → Outcome)
    (w : World) (ip : String) (hmax : 0 < cfg.maxRetries)
    (h : alookup w.conns ip = none ∨
      ∃ c, alookup w.conns ip = some c ∧ c.isConnected = false ∧ c.hasPromise = false ∧
        c.retryCount < cfg.maxRetries) :
    w.callLog.length < (getConnection cfg behavior w ip).2.callLog.length := by
  rcases h with hnone | ⟨c, hc, hconn, hp, hlt⟩
  · have := createConnection_callLog_gain cfg behavior w ip (by rw [hnone]; simpa using hmax)
    simpa [getConnection, hnone] using this
  · have := createConnection_callLog_gain cfg behavior w ip (by rw [hc]; simpa using hlt)
    simpa [getConnection, hc, hconn, hp] using this

theorem acquire_starts_new_attempt_witness :
    (0 < ({} : Config).maxRetries ∧ alookup ({} : World).conns "b" = none) ∧
    ({} : World).callLog.length
      < (getConnection {} (fun _ => Outcome.timeout) ({} : World) "b").2.callLog.length :=
  ⟨⟨by decide, by decide⟩,
   acquire_starts_new_attempt {} (fun _ => Outcome.timeout) {} "b" (by decide)
     (Or.inl (by decide))⟩

/-- C4: when a fresh attempt (new entry, default config) fails on all 10
consecutive iterations, `getConnection` fails, and what it fails with is the
last iteration's underlying error (the rejection of `connectWithRetry` is
rethrown by the `await` in `createConnection`); the entry is left
Disconnected with its `connectionPromise` cleared, and exactly one
`connectionFailed` event is emitted for the cycle. -/
theorem exhaustedRetries_acquire_fails (behavior : Nat → Outcome) (w : World) (ip : String)
    (hnone : alookup w.conns ip = none)
    (hfail : ∀ i, i < 10 → (failMsgOf (behavior (countIp w.callLog ip + i))).isSome = true) :
    (getConnection {} behavior w ip).1
      = Except.error ((failMsgOf (behavior (countIp w.callLog ip + 9))).getD "") ∧
    (∃ c, alookup (getConnection {} behavior w ip).2.conns ip = some c ∧
      c.isConnected = false ∧ c.hasPromise = false) ∧
    (getConnection {} behavior w ip).2.events.countP isConnFailedEvt
      = w.events.countP isConnFailedEvt + 1 := by
  have hr := connectLoop_allFail {} behavior ip 10
    { ({} : Conn) with hasPromise := true } (countIp w.callLog ip) w.now
    (by omega) hfail
  simp only [getConnection, hnone, createConnection, connectWithRetry, Option.getD_none]
  simp only [show ({} : Config).maxRetries
      - ({ ({} : Conn) with hasPromise := true } : Conn).retryCount = 10 from rfl]
  rw [hr.1]
  refine ⟨rfl, ⟨_, by rw [alookup_aset_self], hr.2.1, hr.2.2.1⟩, ?_⟩
  simp [List.countP_append, hr.2.2.2.1]

theorem exhaustedRetries_acquire_fails_witness :
    (alookup ({} : World).conns "c" = none ∧
     (∀ i, i < 10 →
       (failMsgOf ((fun _ => Outcome.timeout) (countIp ({} : World).callLog "c" + i))).isSome
         = true)) ∧
    ((getConnection {} (fun _ => Outcome.timeout) ({} : World) "c").1
        = Except.error ((failMsgOf ((fun _ => Outcome.timeout)
            (countIp ({} : World).callLog "c" + 9))).getD "") ∧
     (∃ c, alookup (getConnection {} (fun _ => Outcome.timeout) ({} : World) "c").2.conns "c"
          = some c ∧ c.isConnected = false ∧ c.hasPromise = false) ∧
     (getConnection {} (fun _ => Outcome.timeout) ({} : World) "c").2.events.countP
          isConnFailedEvt
       = ({} : World).events.countP isConnFailedEvt + 1) :=
  ⟨⟨by decide, by decide⟩,
   exhaustedRetries_acquire_fails (fun _ => Outcome.timeout) {} "c" (by decide) (by decide)⟩

/-- Driver behaviour of the C5 scenario: the first three connect calls fail
with an error event, the fourth succeeds. -/
def c5Behavior : Nat → Outcome := fun i =>
  if i < 3 then Outcome.errEvt 0 ("E" ++ toString (i + 1)) else Outcome.success 0

/-- C5: with the driver failing the first 3 iterations by error event and
succeeding on the 4th (default config: maxRetries 10, retryDelay 5000,
connectionTimeout 10000), `getConnection("10.0.0.1")` on a fresh manager
resolves successfully on the 4th iteration (4 connect calls), exactly three
`retry` events are emitted carrying attempt numbers 1, 2, 3, a `connected`
event is emitted for the address, and the entry ends marked Connected with
`retryCount` reset to 0 and `lastRetryTime` recorded at the success time
(15000ms: three retry delays of 5000ms). -/
theorem threeFailures_then_success :
    (getConnection {} c5Behavior ({} : World) "10.0.0.1").1 = Except.ok () ∧
    (getConnection {} c5Behavior ({} : World) "10.0.0.1").2.events.filter isRetryEvt
      = [Event.retry "10.0.0.1" 1 "E1", Event.retry "10.0.0.1" 2 "E2",
         Event.retry "10.0.0.1" 3 "E3"] ∧
    (getConnection {} c5Behavior ({} : World) "10.0.0.1").2.callLog.length = 4 ∧
    Event.connected "10.0.0.1" ∈ (getConnection {} c5Behavior ({} : World) "10.0.0.1").2.events ∧
    alookup (getConnection {} c5Behavior ({} : World) "10.0.0.1").2.conns "10.0.0.1"
      = some { isConnected := true, hasPromise := true, retryCount := 0,
               lastRetryTime := 15000, state := none } ∧
    (getConnection {} c5Behavior ({} : World) "10.0.0.1").2.now = 15000 := by decide

/-- C6: the reconnect procedure (i) returns immediately when the entry's
`connectionPromise` reference is non-null (so in particular while an attempt
is in flight — overlapping disconnect/error handlers cannot spawn duplicate
loops); (ii) when a prior cycle left `retryCount` at `maxRetries`, it is
equivalent to first advancing the clock by `2 * retryDelay` and resetting
`retryCount` to 0, then reconnecting from that state; and (iii) a reconnect
cycle that fails is swallowed — the result is a plain world (nothing is
rethrown) in which exactly one more `reconnectFailed` event appears. -/
theorem attemptReconnect_props (cfg : Config) (behavior : Nat → Outcome)
    (w : World) (ip : String) (c : Conn)
    (hc : alookup w.conns ip = some c) (hmax : 0 < cfg.maxRetries) :
    (c.hasPromise = true → attemptReconnect cfg behavior w ip = w) ∧
    (c.hasPromise = false → cfg.maxRetries ≤ c.retryCount →
      attemptReconnect cfg behavior w ip
        = attemptReconnect cfg behavior
            { w with now := w.now + 2 * cfg.retryDelay,
                     conns := aset w.conns ip { c with retryCount := 0 } } ip) ∧
    (c.hasPromise = false → c.retryCount < cfg.maxRetries →
      (∀ i, i < cfg.maxRetries - c.retryCount →
        (failMsgOf (behavior (countIp w.callLog ip + i))).isSome = true) →
      (attemptReconnect cfg behavior w ip).events.countP isReconnFailedEvt
        = w.events.countP isReconnFailedEvt + 1) := by
  refine ⟨fun h => by simp [attemptReconnect, hc, h], fun h h2 => ?_, fun h h2 hfail => ?_⟩
  · simp only [attemptReconnect, hc, h, alookup_aset_self, aset_aset_self,
      Bool.false_eq_true, if_false, if_pos h2, Nat.le_zero,
      if_neg (Nat.pos_iff_ne_zero.mp hmax)]
  · have hr := connectLoop_allFail cfg behavior ip (cfg.maxRetries - c.retryCount)
      { c with hasPromise := true } (countIp w.callLog ip) w.now (by omega) hfail
    simp only [attemptReconnect, hc, h, Bool.false_eq_true, if_false,
      if_neg (by omega : ¬ cfg.maxRetries ≤ c.retryCount), connectWithRetry]
    rw [hr.1]
    simp [List.countP_append, List.countP_cons, isReconnFailedEvt, hr.2.2.2.2.1]

/-- World of the C6 witness: one quiescent entry. -/
def c6World : World := { conns := [("x", {})] }

theorem attemptReconnect_props_witness :
    (alookup c6World.conns "x" = some {} ∧ 0 < ({} : Config).maxRetries) ∧
    ((({} : Conn).hasPromise = true →
        attemptReconnect {} (fun _ => Outcome.timeout) c6World "x" = c6World) ∧
     (({} : Conn).hasPromise = false → ({} : Config).maxRetries ≤ ({} : Conn).retryCount →
        attemptReconnect {} (fun _ => Outcome.timeout) c6World "x"
          = attemptReconnect {} (fun _ => Outcome.timeout)
              { c6World with now := c6World.now + 2 * ({} : Config).retryDelay,
                             conns := aset c6World.conns "x" { ({} : Conn) with retryCount := 0 } }
              "x") ∧
     (({} : Conn).hasPromise = false → ({} : Conn).retryCount < ({} : Config).maxRetries →
       (∀ i, i < ({} : Config).maxRetries - ({} : Conn).retryCount →
         (failMsgOf ((fun _ => Outcome.timeout) (countIp c6World.callLog "x" + i))).isSome
           = true) →
       (attemptReconnect {} (fun _ => Outcome.timeout) c6World "x").events.countP
            isReconnFailedEvt
         = c6World.events.countP isReconnFailedEvt + 1)) :=
  ⟨⟨by decide, by decide⟩,
   attemptReconnect_props {} (fun _ => Outcome.timeout) c6World "x" {} (by decide) (by decide)⟩

theorem foldl_notifyOne (throws : Nat → Bool) :
    ∀ (ls : List Listener) (w : World),
    (ls.foldl (notifyOne throws) w).invocations = w.invocations ++ ls.map Listener.cb ∧
    (ls.foldl (notifyOne throws) w).cbErrors
      = w.cbErrors ++ (ls.filter (fun l => throws l.cb)).map Listener.cb ∧
    (ls.foldl (notifyOne throws) w).conns = w.conns ∧
    (ls.foldl (notifyOne throws) w).events = w.events := by
  intro ls
  induction ls with
  | nil => intro w; simp
  | cons l ls ih =>
    intro w
    rcases ih (notifyOne throws w l) with ⟨h1, h2, h3, h4⟩
    by_cases ht : throws l.cb <;>
      simp [notifyOne, ht] at h1 h2 h3 h4 <;>
      refine ⟨?_, ?_, ?_, ?_⟩ <;>
        simp [List.foldl_cons, notifyOne, ht, h1, h2, h3, h4]

/-- C7: on a `stateChanged` driver event, every registered observer callback
for the address is invoked, in registration order; throwing callbacks are
caught (each appears in the error log) and do not prevent the invocation of
any later callback, nor do they disturb the manager's own handling — the
connection map is untouched and exactly the pool-level `stateChanged` event
is emitted, for every assignment of which callbacks throw. -/
theorem stateChanged_delivers_all (throws : Nat → Bool) (w : World) (ip : String)
    (ls : List Listener) (hl : alookup w.listeners ip = some ls) :
    (handleStateChanged throws w ip).invocations = w.invocations ++ ls.map Listener.cb ∧
    (handleStateChanged throws w ip).cbErrors
      = w.cbErrors ++ (ls.filter (fun l => throws l.cb)).map Listener.cb ∧
    (handleStateChanged throws w ip).conns = w.conns ∧
    (handleStateChanged throws w ip).events = w.events ++ [Event.stateChanged ip] := by
  have h := foldl_notifyOne throws ls { w with events := w.events ++ [Event.stateChanged ip] }
  simp only [handleStateChanged, hl]
  exact ⟨h.1, h.2.1, h.2.2.1, h.2.2.2⟩

/-- World of the C7 witness: two observers on one address; the witness
instantiates `throws` so that the first observer's callback throws. -/
def c7World : World := { listeners := [("x", [⟨"x", 0⟩, ⟨"x", 1⟩])] }

theorem stateChanged_delivers_all_witness :
    alookup c7World.listeners "x" = some [⟨"x", 0⟩, ⟨"x", 1⟩] ∧
    ((handleStateChanged (fun n => n == 0) c7World "x").invocations
        = c7World.invocations ++ ([⟨"x", 0⟩, ⟨"x", 1⟩] : List Listener).map Listener.cb ∧
     (handleStateChanged (fun n => n == 0) c7World "x").cbErrors
        = c7World.cbErrors ++ (([⟨"x", 0⟩, ⟨"x", 1⟩] : List Listener).filter
            (fun l => (fun n => n == 0) l.cb)).map Listener.cb ∧
     (handleStateChanged (fun n => n == 0) c7World "x").conns = c7World.conns ∧
     (handleStateChanged (fun n => n == 0) c7World "x").events
        = c7World.events ++ [Event.stateChanged "x"]) :=
  ⟨by decide, stateChanged_delivers_all (fun n => n == 0) c7World "x" _ (by decide)⟩

/-- C8: `disconnect(ip)` removes the entry entirely (its pending-attempt
reference having been nulled on the way out) and calls the driver's
`disconnect` exactly when the connection was Connected; an immediately
following `getConnection(ip)` therefore takes the fresh-entry path — it
cannot report a stale Connected status or attach to a stale pending attempt
— and starts a brand-new attempt that issues a new connect call. -/
theorem release_then_acquire (cfg : Config) (behavior : Nat → Outcome)
    (w : World) (ip : String) (c : Conn)
    (hmax : 0 < cfg.maxRetries) (hc : alookup w.conns ip = some c)
    (hnodup : (w.conns.map Prod.fst).Nodup) :
    alookup (disconnect w ip).conns ip = none ∧
    (disconnect w ip).discLog = w.discLog ++ (if c.isConnected then [ip] else []) ∧
    (syncPhase cfg (disconnect w ip) ip).1 = AcquirePath.startFresh ∧
    (disconnect w ip).callLog.length
      < (getConnection cfg behavior (disconnect w ip) ip).2.callLog.length := by
  have hnone : alookup (disconnect w ip).conns ip = none := by
    simp only [disconnect, hc]
    by_cases hic : c.isConnected <;> simp [hic, alookup_aerase_self _ _ hnodup]
  refine ⟨hnone, ?_, ?_, ?_⟩
  · simp only [disconnect, hc]
    by_cases hic : c.isConnected <;> simp [hic]
  · simp [syncPhase, hnone]
  · have := createConnection_callLog_gain cfg behavior (disconnect w ip) ip
      (by rw [hnone]; simpa using hmax)
    simpa [getConnection, hnone] using this

/-- World of the C8 witness: one Connected entry. -/
def c8World : World := { conns := [("x", { isConnected := true })] }

theorem release_then_acquire_witness :
    (0 < ({} : Config).maxRetries ∧
     alookup c8World.conns "x" = some { isConnected := true } ∧
     (c8World.conns.map Prod.fst).Nodup) ∧
    (alookup (disconnect c8World "x").conns "x" = none ∧
     (disconnect c8World "x").discLog
       = c8World.discLog ++ (if ({ isConnected := true } : Conn).isConnected then ["x"] else []) ∧
     (syncPhase {} (disconnect c8World "x") "x").1 = AcquirePath.startFresh ∧
     (disconnect c8World "x").callLog.length
       < (getConnection {} (fun _ => Outcome.success 0) (disconnect c8World "x") "x").2.callLog.length) :=
  ⟨⟨by decide, by decide, by decide⟩,
   release_then_acquire {} (fun _ => Outcome.success 0) c8World "x" { isConnected := true }
     (by decide) (by decide) (by decide)⟩

theorem cbCount_removeFirstCb (cb : Nat) : ∀ ls : List Listener,
    cbCount (removeFirstCb cb ls) cb = cbCount ls cb - 1 := by
  intro ls
  induction ls with
  | nil => simp [removeFirstCb, cbCount]
  | cons l ls ih =>
    simp only [cbCount, List.countP_cons] at ih ⊢
    by_cases h : l.cb = cb
    · simp [removeFirstCb, h]
    · simp only [removeFirstCb, if_neg h, List.countP_cons, ih]
      simp [h]

theorem length_removeFirstCb (cb : Nat) : ∀ ls : List Listener,
    (removeFirstCb cb ls).length
      = if cbCount ls cb = 0 then ls.length else ls.length - 1 := by
  intro ls
  induction ls with
  | nil => simp [removeFirstCb, cbCount]
  | cons l ls ih =>
    have hle := List.countP_le_length (l := ls) (p := fun l => l.cb == cb)
    simp only [cbCount, List.countP_cons] at ih ⊢
    by_cases h : l.cb = cb
    · simp [removeFirstCb, h]
    · simp only [removeFirstCb, if_neg h, List.length_cons, ih]
      by_cases h0 : List.countP (fun l => l.cb == cb) ls = 0
      · simp [h, h0]
      · simp only [if_neg h0]
        simp [h, h0]
        omega

/-- World of the C9 counterexample (already holding the two registrations
made under the same listener id "A" with two distinct callbacks). -/
def c9World : World := addStateListener (addStateListener {} "A" "x" 0) "A" "x" 1

/-- C9 counterexample: registering a second observer under the SAME listener
id "A" (but a different callback) does not replace the first registration —
the source never consults the `listenerId` argument and de-duplicates by
callback reference only — so after the two calls the per-address list holds
two entries, both registered under listener id "A", where replacement
semantics would have left one. -/
theorem sameListenerId_appends :
    (alookup c9World.listeners "x").getD [] = [⟨"x", 0⟩, ⟨"x", 1⟩] := by decide

/-- C9 amended: the de-duplication identity is the callback, not the
listener id: re-registering an already-registered callback (under any
listener id) removes the old entry and appends the new one, so a
per-address list that held the callback at most once holds it exactly once
afterwards, with the list growing only when the callback was new. -/
theorem addStateListener_dedup_by_cb (w : World) (listenerId : String) (ip : String)
    (cb : Nat) (ls : List Listener) (hl : alookup w.listeners ip = some ls)
    (hcount : cbCount ls cb ≤ 1) :
    cbCount ((alookup (addStateListener w listenerId ip cb).listeners ip).getD []) cb = 1 ∧
    ((alookup (addStateListener w listenerId ip cb).listeners ip).getD []).length
      = (if cbCount ls cb = 1 then ls.length else ls.length + 1) := by
  have hrem := cbCount_removeFirstCb cb ls
  have hlen := length_removeFirstCb cb ls
  have hle := List.countP_le_length (l := ls) (p := fun l => l.cb == cb)
  simp only [cbCount] at hrem hlen hcount ⊢
  simp only [addStateListener, hl, Option.getD_some, alookup_aset_self]
  constructor
  · simp [List.countP_append, List.countP_cons, hrem]
    omega
  · rw [List.length_append, hlen]
    by_cases h0 : List.countP (fun l => l.cb == cb) ls = 0
    · simp [h0]
    · simp only [if_neg h0]
      have h1 : List.countP (fun l => l.cb == cb) ls = 1 := by omega
      simp [h1]
      omega

/-- World of the C9 witness: one registered observer. -/
def c9aWorld : World := { listeners := [("y", [⟨"y", 5⟩])] }

theorem addStateListener_dedup_by_cb_witness :
    (alookup c9aWorld.listeners "y" = some [⟨"y", 5⟩] ∧
     cbCount [⟨"y", 5⟩] 5 ≤ 1) ∧
    (cbCount ((alookup (addStateListener c9aWorld "B" "y" 5).listeners "y").getD []) 5 = 1 ∧
     ((alookup (addStateListener c9aWorld "B" "y" 5).listeners "y").getD []).length
       = (if cbCount [⟨"y", 5⟩] 5 = 1 then ([⟨"y", 5⟩] : List Listener).length
          else ([⟨"y", 5⟩] : List Listener).length + 1)) :=
  ⟨⟨by decide, by decide⟩,
   addStateListener_dedup_by_cb c9aWorld "B" "y" 5 [⟨"y", 5⟩] (by decide) (by decide)⟩

/-- World of the C10 counterexample: a connected entry whose driver state
has the two keys "1" and "01", both parsing to input id 1. -/
def c10World : World :=
  { conns :=
      [("x",
        { isConnected := true,
          state := some
            { inputs :=
                [("1", some { longName := some "A" }),
                 ("01", some { longName := some "B" })] } })] }

/-- C10 counterexample: `Object.entries` keys "1" and "01" are distinct, but
`parseInt` maps both to input id 1, so `getInputSources` returns two entries
carrying the same id — refuting both "one entry per numeric input id" and
the claim that the result is sorted in strictly ascending order of id. -/
theorem duplicate_input_ids :
    getInputSources c10World "x" = [⟨1, "A"⟩, ⟨1, "B"⟩] ∧
    ¬ (getInputSources c10World "x").Pairwise (fun a b => a.id < b.id) := by
  refine ⟨by decide, fun hp => ?_⟩
  rw [show getInputSources c10World "x" = [⟨1, "A"⟩, ⟨1, "B"⟩] from by decide] at hp
  simp [List.pairwise_cons] at hp

/-- C10 amended: `getInputSources` returns the empty list when no entry
exists, the entry is not connected, or the driver has no state; otherwise it
returns one entry per inputs key whose value is an object carrying a
`longName` field and whose key parses to an integer — named
`longName || shortName || "Input <id>"` — sorted by parsed id in
non-decreasing (not necessarily strict) order. -/
theorem getInputSources_spec (w : World) (ip : String) :
    (alookup w.conns ip = none → getInputSources w ip = []) ∧
    (∀ c, alookup w.conns ip = some c → c.isConnected = false → getInputSources w ip = []) ∧
    (∀ c, alookup w.conns ip = some c → c.state = none → getInputSources w ip = []) ∧
    (∀ c st, alookup w.conns ip = some c → c.isConnected = true → c.state = some st →
      (getInputSources w ip).Pairwise (fun a b => a.id ≤ b.id) ∧
      (getInputSources w ip).Perm (st.inputs.filterMap entryOf)) := by
  refine ⟨fun hnone => by simp [getInputSources, hnone],
          fun c hc hic => by simp [getInputSources, hc, hic],
          fun c hc hst => ?_, fun c st hc hic hst => ?_⟩
  · by_cases hic : c.isConnected <;> simp [getInputSources, hc, hst, hic]
  · haveI : IsTotal SourceEntry (fun a b => a.id ≤ b.id) := ⟨fun a b => le_total a.id b.id⟩
    haveI : IsTrans SourceEntry (fun a b => a.id ≤ b.id) :=
      ⟨fun a b c h1 h2 => le_trans h1 h2⟩
    simp only [getInputSources, hc, hic, hst]
    exact ⟨List.sorted_insertionSort _ _, List.perm_insertionSort _ _⟩

/-- Driver state of the C10 witness: one key with a proper long name, one
whose empty long name falls back to the short name, one non-numeric key, one
null value and one object without `longName` (the last three are skipped). -/
def c10SortState : AtemState :=
  { inputs :=
      [("2", some { longName := some "Cam2" }),
       ("1", some { longName := some "", shortName := some "C1" }),
       ("abc", some { longName := some "Zed" }),
       ("3", none),
       ("4", some { shortName := some "S" })] }

def c10SortConn : Conn := { isConnected := true, state := some c10SortState }

def c10SortWorld : World := { conns := [("y", c10SortConn)] }

theorem getInputSources_spec_witness :
    (alookup c10SortWorld.conns "y" = some c10SortConn ∧
     c10SortConn.isConnected = true ∧ c10SortConn.state = some c10SortState) ∧
    ((getInputSources c10SortWorld "y").Pairwise (fun a b => a.id ≤ b.id) ∧
     (getInputSources c10SortWorld "y").Perm (c10SortState.inputs.filterMap entryOf)) :=
  ⟨⟨by decide, by decide, by decide⟩,
   (getInputSources_spec c10SortWorld "y").2.2.2 c10SortConn c10SortState
     (by decide) (by decide) (by decide)⟩
